import Mathlib

/-!
Shallow embedding of the pattern-score engine of `pulse/core/smart_money_screener.py`
(class `SmartMoneyScreener` and the result record `SmartMoneyResult`), together with
the model-artifact loaders of `pulse/core/sapta/ml/feature_analysis.py`.

Python floats are modelled as `ℚ` (every constant the scorer adds or compares with is
exactly representable, so the rational model agrees with the float code on all the
properties proved here); Python ints as `ℤ`/`ℕ`.  An `Option` field models a Python
`Optional` field, and Python truthiness of an optional float (`if self.x:` is false for
both `None` and `0.0`) is modelled by `qTruthy`.  Signal strings built with f-strings
are modelled by the inductive `Signal`, each constructor carrying exactly the values
interpolated into the corresponding format string.
-/

/-- Python truthiness of an `Optional[float]`: `None` and `0.0` are falsy. -/
def qTruthy : Option ℚ → Bool
  | none => false
  | some x => decide (x ≠ 0)

/-- One entry of `SmartMoneyResult.signals` (source lines 392-491): each constructor
stands for one f-string appended to `signals`, carrying the interpolated values. -/
inductive Signal where
  | perfectSqueeze (widthPct : ℚ) (days : ℕ)
  | bbContraction (widthPct : ℚ)
  | breakoutWithBody (bbUpper : Option ℚ) (bodyRatio : ℚ)
  | breakoutOnly
  | obvBrokeHigh
  | obvConsolidating
  | volumeLadder (volRatio : ℚ)
  | volumeSurge (volRatio : ℚ)
  | strongCandle (bodyRatio : ℚ) (closePos : ℚ)
  | redCandle (bodyRatio : ℚ)
  | goldenBias (bias : ℚ)
  | leavingCost (bias : ℚ)
  | pullback (bias : ℚ)
  | aboveSma200
  deriving Repr, DecidableEq

/-- The dataclass `SmartMoneyResult` (source lines 66-116), with the source's
field defaults. -/
structure SmartMoneyResult where
  ticker : String
  name : Option String := none
  sector : Option String := none
  price : ℚ := 0
  change_percent : ℚ := 0
  volume : ℤ := 0
  bb_upper : Option ℚ := none
  bb_middle : Option ℚ := none
  bb_lower : Option ℚ := none
  bb_width : Option ℚ := none
  sma_20 : Option ℚ := none
  sma_200 : Option ℚ := none
  volume_sma_5 : Option ℚ := none
  obv : Option ℚ := none
  obv_consolidation_high : Option ℚ := none
  obv_broke_high : Bool := false
  body_ratio : Option ℚ := none
  close_position : Option ℚ := none
  bias_ma20 : Option ℚ := none
  total_score : ℚ := 0
  trend_score : ℚ := 0
  volume_score : ℚ := 0
  bias_score : ℚ := 0
  signals : List Signal := []
  squeeze_days : ℕ := 0
  is_breakout : Bool := false
  is_volume_ladder : Bool := false
  deriving Repr, DecidableEq

/-- Property `bb_width_percent` (source lines 118-123): the guard is the Python
truthiness chain `bb_middle and bb_middle > 0 and bb_upper and bb_lower`. -/
def SmartMoneyResult.bb_width_percent (r : SmartMoneyResult) : ℚ :=
  if qTruthy r.bb_middle ∧ 0 < r.bb_middle.getD 0
      ∧ qTruthy r.bb_upper ∧ qTruthy r.bb_lower then
    ((r.bb_upper.getD 0 - r.bb_lower.getD 0) / r.bb_middle.getD 0) * 100
  else 100

/-- Property `volume_ratio` (source lines 125-130). -/
def SmartMoneyResult.volume_ratio (r : SmartMoneyResult) : ℚ :=
  if qTruthy r.volume_sma_5 ∧ 0 < r.volume_sma_5.getD 0 then
    (r.volume : ℚ) / r.volume_sma_5.getD 0
  else 1

/-- Property `status` (source lines 132-142): descending thresholds 80 / 60 / 40. -/
def SmartMoneyResult.status (r : SmartMoneyResult) : String :=
  if 80 ≤ r.total_score then "⭐⭐⭐ 強勢主力股"
  else if 60 ≤ r.total_score then "⭐⭐ 主力吸籌"
  else if 40 ≤ r.total_score then "⭐ 觀察名單"
  else "未達標準"

/-- Rank of a status label in the ordering the spec calls status order:
the three star levels above the below-standard label. -/
def statusRank (s : String) : ℕ :=
  if s = "⭐⭐⭐ 強勢主力股" then 3
  else if s = "⭐⭐ 主力吸籌" then 2
  else if s = "⭐ 觀察名單" then 1
  else 0

/-- Class constant `BB_SQUEEZE_WIDTH` (source line 153). -/
def BB_SQUEEZE_WIDTH : ℚ := 15
/-- Class constant `BB_SQUEEZE_DAYS` (source line 154). -/
def BB_SQUEEZE_DAYS : ℕ := 10
/-- Class constant `BODY_RATIO_THRESHOLD` (source line 155). -/
def BODY_RATIO_THRESHOLD : ℚ := 7/10
/-- Class constant `CLOSE_POSITION_THRESHOLD` (source line 156). -/
def CLOSE_POSITION_THRESHOLD : ℚ := 9/10
/-- Class constant `VOLUME_LADDER_THRESHOLD` (source line 157). -/
def VOLUME_LADDER_THRESHOLD : ℚ := 2
/-- Class constant `BIAS_LOWER` (source line 158). -/
def BIAS_LOWER : ℚ := 5
/-- Class constant `BIAS_UPPER` (source line 159). -/
def BIAS_UPPER : ℚ := 10

/-- Scorer block 1, 極致壓縮 (source lines 383-405): returns the increment added to
both `score` and `trend_score`, and the signals appended. -/
def squeezeBlock (r : SmartMoneyResult) : ℚ × List Signal :=
  if r.bb_width_percent < BB_SQUEEZE_WIDTH ∧ BB_SQUEEZE_DAYS ≤ r.squeeze_days then
    (25, [Signal.perfectSqueeze r.bb_width_percent r.squeeze_days])
  else if r.bb_width_percent < BB_SQUEEZE_WIDTH then
    (15, [Signal.bbContraction r.bb_width_percent])
  else if r.bb_width_percent < 20 then (5, [])
  else (0, [])

/-- Scorer block 2, 帶量突破 (source lines 407-418): the first guard is the Python
truthiness chain `is_breakout and body_ratio and body_ratio > 0.5`. -/
def breakoutBlock (r : SmartMoneyResult) : ℚ × List Signal :=
  if r.is_breakout ∧ qTruthy r.body_ratio ∧ 1/2 < r.body_ratio.getD 0 then
    (15, [Signal.breakoutWithBody r.bb_upper (r.body_ratio.getD 0)])
  else if r.is_breakout then (8, [Signal.breakoutOnly])
  else (0, [])

/-- Scorer block 3, OBV先行創高 (source lines 422-433): the second guard is the
truthiness of `obv_consolidation_high`. -/
def obvBlock (r : SmartMoneyResult) : ℚ × List Signal :=
  if r.obv_broke_high then (15, [Signal.obvBrokeHigh])
  else if qTruthy r.obv_consolidation_high then (5, [Signal.obvConsolidating])
  else (0, [])

/-- Scorer block 4, 純粹攻擊量 (source lines 435-446). -/
def ladderBlock (r : SmartMoneyResult) : ℚ × List Signal :=
  if r.is_volume_ladder ∧ VOLUME_LADDER_THRESHOLD < r.volume_ratio then
    (10, [Signal.volumeLadder r.volume_ratio])
  else if VOLUME_LADDER_THRESHOLD < r.volume_ratio then
    (5, [Signal.volumeSurge r.volume_ratio])
  else (0, [])

/-- Scorer block 5, K線霸氣 (source lines 448-466). -/
def candleBlock (r : SmartMoneyResult) : ℚ × List Signal :=
  if qTruthy r.body_ratio ∧ BODY_RATIO_THRESHOLD ≤ r.body_ratio.getD 0
      ∧ qTruthy r.close_position ∧ CLOSE_POSITION_THRESHOLD ≤ r.close_position.getD 0 then
    (10, [Signal.strongCandle (r.body_ratio.getD 0) (r.close_position.getD 0)])
  else if qTruthy r.body_ratio ∧ 1/2 ≤ r.body_ratio.getD 0 then
    (5, [Signal.redCandle (r.body_ratio.getD 0)])
  else (0, [])

/-- Scorer block 6, 黃金起漲點 (source lines 470-485): the outer guard is the
truthiness of `bias_ma20`; the middle branch bound is `BIAS_LOWER * 2`. -/
def biasBlock (r : SmartMoneyResult) : ℚ × List Signal :=
  if qTruthy r.bias_ma20 then
    if BIAS_LOWER ≤ r.bias_ma20.getD 0 ∧ r.bias_ma20.getD 0 ≤ BIAS_UPPER then
      (15, [Signal.goldenBias (r.bias_ma20.getD 0)])
    else if 0 < r.bias_ma20.getD 0 ∧ r.bias_ma20.getD 0 < BIAS_LOWER * 2 then
      (7, [Signal.leavingCost (r.bias_ma20.getD 0)])
    else if r.bias_ma20.getD 0 < 0 then (3, [Signal.pullback (r.bias_ma20.getD 0)])
    else (0, [])
  else (0, [])

/-- Scorer block 7, 長線保護短線 (source lines 487-491): note that in the source the
10 points are added to `trend_score`, not to `bias_score`. -/
def sma200Block (r : SmartMoneyResult) : ℚ × List Signal :=
  if qTruthy r.sma_200 ∧ r.sma_200.getD 0 < r.price then (10, [Signal.aboveSma200])
  else (0, [])

/-- Method `SmartMoneyScreener._calculate_smart_money_score` (source lines 368-500):
runs the seven blocks in source order, accumulates `score` and the three category
scores, and stores `total_score = min(score, 100.0)` on the result. -/
def _calculate_smart_money_score (r : SmartMoneyResult) : SmartMoneyResult :=
  let squeeze := squeezeBlock r
  let breakout := breakoutBlock r
  let obv := obvBlock r
  let ladder := ladderBlock r
  let candle := candleBlock r
  let bias := biasBlock r
  let ma200 := sma200Block r
  let score := squeeze.1 + breakout.1 + obv.1 + ladder.1 + candle.1 + bias.1 + ma200.1
  { r with
    total_score := min score 100
    trend_score := squeeze.1 + breakout.1 + ma200.1
    volume_score := obv.1 + ladder.1 + candle.1
    bias_score := bias.1
    signals := squeeze.2 ++ breakout.2 ++ obv.2 ++ ladder.2 ++ candle.2
      ++ bias.2 ++ ma200.2 }

/-- Method `SmartMoneyScreener._fetch_full_data` (source lines 190-247).  The external
work of the `try` block — `fetch_stock`, `TechnicalAnalyzer.analyze`, `fetch_history`
and `_analyze_from_dataframe` — is summarised by the `provider` oracle: `.ok x` is the
value the block returns (`none` for a falsy `stock` or `technical`), `.error e` an
exception raised inside the block, which the `except` clause turns into `None`. -/
def _fetch_full_data (provider : String → Except String (Option SmartMoneyResult))
    (ticker : String) : Option SmartMoneyResult :=
  match provider ticker with
  | Except.ok x => x
  | Except.error _ => none

/-- The task body `fetch_and_score` inside `SmartMoneyScreener.screen`
(source lines 537-542). -/
def fetch_and_score (provider : String → Except String (Option SmartMoneyResult))
    (ticker : String) : Option SmartMoneyResult :=
  match _fetch_full_data provider ticker with
  | some data => some (_calculate_smart_money_score data)
  | none => none

/-- Ordering used by `results.sort(key=lambda x: x.total_score, reverse=True)`
(source line 560): `a` may stand before `b` when its score is no smaller. -/
def scoreDescRel (a b : SmartMoneyResult) : Prop := b.total_score ≤ a.total_score

instance : DecidableRel scoreDescRel := fun a b =>
  inferInstanceAs (Decidable (b.total_score ≤ a.total_score))

instance : IsTotal SmartMoneyResult scoreDescRel :=
  ⟨fun a b => le_total b.total_score a.total_score⟩

instance : IsTrans SmartMoneyResult scoreDescRel :=
  ⟨fun _ _ _ hab hbc => le_trans hbc hab⟩

/-- Method `SmartMoneyScreener.screen` (source lines 502-564) for an explicitly given
universe: the falsy-universe early return, one `fetch_and_score` task per ticker, the
skip of `None`/exception items and the `total_score >= min_score` filter, the stable
sort by `total_score` descending (Python's `list.sort` is stable; `insertionSort`
realises the same stable sort), and the truncation `results[:limit]`. -/
def screen (provider : String → Except String (Option SmartMoneyResult))
    (min_score : ℚ) (limit : ℕ) (target_universe : List String) :
    List SmartMoneyResult :=
  if target_universe.isEmpty then []
  else
    let all_results := target_universe.map (fetch_and_score provider)
    let results := (all_results.filterMap id).filter
      (fun r => decide (min_score ≤ r.total_score))
    (List.insertionSort scoreDescRel results).take limit

/-- Content of the sibling `thresholds.json` (spec §6: keys pre_markup, siap,
watchlist). -/
structure ThresholdsData where
  pre_markup : ℚ
  siap : ℚ
  watchlist : ℚ
  deriving Repr, DecidableEq

/-- A deserialized classifier as `feature_analysis.py` uses it: only its optional
`feature_importances_` attribute matters to `get_feature_importance`. -/
structure MlModel where
  feature_importances : Option (List ℚ)
  deriving Repr, DecidableEq

/-- File-system and library state seen by `feature_analysis.py`: whether the two
artifacts exist, and the outcomes of the operations that may raise — reading and
parsing `thresholds.json`, `joblib.load` on `sapta_model.pkl`, and building the
feature-name list (`SaptaFeatureExtractor().feature_names`).  `.error e` models a
raised exception. -/
structure MlEnv where
  model_exists : Bool
  thresholds_exists : Bool
  thresholds_json : Except String ThresholdsData
  joblib_model : Except String MlModel
  feature_names : Except String (List String)

/-- Value built by `load_model_data` (source lines 89-98): the dict
`{"thresholds": ...}`. -/
structure LoadedModelData where
  thresholds : Option ThresholdsData
  deriving Repr, DecidableEq

/-- Function `load_model_data` (feature_analysis.py lines 78-98).  No `try` guards the
body: a missing model file returns `None`, but an exception while opening or parsing
`thresholds.json` propagates to the caller. -/
def load_model_data (env : MlEnv) : Except String (Option LoadedModelData) :=
  if env.model_exists = false then Except.ok none
  else if env.thresholds_exists then
    match env.thresholds_json with
    | Except.error e => Except.error e
    | Except.ok th => Except.ok (some { thresholds := some th })
  else Except.ok (some { thresholds := none })

/-- Function `get_feature_importance` (feature_analysis.py lines 101-128): the whole
body runs inside `try`, and the `except` clause turns any raised exception into
`None`; a model without a `feature_importances_` attribute also yields `None`. -/
def get_feature_importance (env : MlEnv) : Option (List (String × ℚ)) :=
  match (do
      if env.model_exists = false then
        return none
      let model ← env.joblib_model
      let names ← env.feature_names
      match model.feature_importances with
      | some imps => return (some (names.zip imps))
      | none => return none :
    Except String (Option (List (String × ℚ)))) with
  | Except.ok v => v
  | Except.error _ => none

/-- Concrete scorer input for the `trend_score` bound: a perfect squeeze
(`bb_width_percent = 10`, ten squeeze days), a breakout with a 60% body, and a price
above the 200-day line. -/
def trendBugInput : SmartMoneyResult :=
  { ticker := "2330", price := 11, bb_upper := some 10, bb_middle := some 10,
    bb_lower := some 9, sma_200 := some 9, body_ratio := some (3/5),
    squeeze_days := 10, is_breakout := true }

/-- Concrete scorer input scoring exactly 40 (OBV break 15 + golden bias 15 + above
the 200-day line 10), with no division on the evaluation path. -/
def tieBase : SmartMoneyResult :=
  { ticker := "", price := 11, sma_200 := some 9, bias_ma20 := some 7,
    obv_broke_high := true }

/-- Provider returning `tieBase` for every ticker, with the ticker filled in as
`_fetch_full_data` does. -/
def tieProvider (t : String) : Except String (Option SmartMoneyResult) :=
  Except.ok (some { tieBase with ticker := t })

/-- What the scorer makes of `tieBase`: OBV break (+15 volume), golden bias
(+15 bias), above the 200-day line (+10 trend), total 40. -/
def tieScored (t : String) : SmartMoneyResult :=
  { tieBase with
    ticker := t
    total_score := 40
    trend_score := 10
    volume_score := 15
    bias_score := 15
    signals := [Signal.obvBrokeHigh, Signal.goldenBias 7, Signal.aboveSma200] }

/-- Provider for the batch-failure example: fetching ticker X raises, every other
ticker yields `tieBase`. -/
def oneErrorProvider (t : String) : Except String (Option SmartMoneyResult) :=
  if t = "X" then Except.error "boom" else Except.ok (some { tieBase with ticker := t })

/-- Environment with the model artifact present but a corrupt `thresholds.json`:
`json.load` raises. -/
def corruptThresholdsEnv : MlEnv :=
  { model_exists := true, thresholds_exists := true,
    thresholds_json := Except.error "Expecting value: line 1 column 1",
    joblib_model := Except.ok { feature_importances := none },
    feature_names := Except.ok [] }

/-- Projection of the scorer's `total_score` update (source line 494). -/
theorem total_score_calc (r : SmartMoneyResult) :
    (_calculate_smart_money_score r).total_score =
      min ((squeezeBlock r).1 + (breakoutBlock r).1 + (obvBlock r).1 + (ladderBlock r).1
        + (candleBlock r).1 + (biasBlock r).1 + (sma200Block r).1) 100 := rfl

/-- Projection of the scorer's `trend_score` update (source lines 390, 399, 404, 410,
416, 489). -/
theorem trend_score_calc (r : SmartMoneyResult) :
    (_calculate_smart_money_score r).trend_score =
      (squeezeBlock r).1 + (breakoutBlock r).1 + (sma200Block r).1 := rfl

/-- Projection of the scorer's `volume_score` update (source lines 425, 431, 438,
444, 456, 464). -/
theorem volume_score_calc (r : SmartMoneyResult) :
    (_calculate_smart_money_score r).volume_score =
      (obvBlock r).1 + (ladderBlock r).1 + (candleBlock r).1 := rfl

/-- Projection of the scorer's `bias_score` update (source lines 473, 478, 483). -/
theorem bias_score_calc (r : SmartMoneyResult) :
    (_calculate_smart_money_score r).bias_score = (biasBlock r).1 := rfl

/-- The squeeze block adds between 0 and 25 points. -/
theorem squeezeBlock_bounds (r : SmartMoneyResult) :
    0 ≤ (squeezeBlock r).1 ∧ (squeezeBlock r).1 ≤ 25 := by
  unfold squeezeBlock; split_ifs <;> norm_num

/-- The breakout block adds between 0 and 15 points. -/
theorem breakoutBlock_bounds (r : SmartMoneyResult) :
    0 ≤ (breakoutBlock r).1 ∧ (breakoutBlock r).1 ≤ 15 := by
  unfold breakoutBlock; split_ifs <;> norm_num

/-- The OBV block adds between 0 and 15 points. -/
theorem obvBlock_bounds (r : SmartMoneyResult) :
    0 ≤ (obvBlock r).1 ∧ (obvBlock r).1 ≤ 15 := by
  unfold obvBlock; split_ifs <;> norm_num

/-- The attack-volume block adds between 0 and 10 points. -/
theorem ladderBlock_bounds (r : SmartMoneyResult) :
    0 ≤ (ladderBlock r).1 ∧ (ladderBlock r).1 ≤ 10 := by
  unfold ladderBlock; split_ifs <;> norm_num

/-- The candle block adds between 0 and 10 points. -/
theorem candleBlock_bounds (r : SmartMoneyResult) :
    0 ≤ (candleBlock r).1 ∧ (candleBlock r).1 ≤ 10 := by
  unfold candleBlock; split_ifs <;> norm_num

/-- The bias block adds between 0 and 15 points. -/
theorem biasBlock_bounds (r : SmartMoneyResult) :
    0 ≤ (biasBlock r).1 ∧ (biasBlock r).1 ≤ 15 := by
  unfold biasBlock; split_ifs <;> norm_num

/-- The 200-day-line block adds 0 or 10 points. -/
theorem sma200Block_bounds (r : SmartMoneyResult) :
    0 ≤ (sma200Block r).1 ∧ (sma200Block r).1 ≤ 10 := by
  unfold sma200Block; split_ifs <;> norm_num

/-- C1: for every result produced by `_calculate_smart_money_score`, the composite
`total_score` lies in [0, 100]: every scoring contribution is non-negative and the
accumulated sum is capped at 100 before being stored. -/
theorem C1_total_score_in_unit_range (r : SmartMoneyResult) :
    0 ≤ (_calculate_smart_money_score r).total_score
    ∧ (_calculate_smart_money_score r).total_score ≤ 100 := by
  have h1 := squeezeBlock_bounds r
  have h2 := breakoutBlock_bounds r
  have h3 := obvBlock_bounds r
  have h4 := ladderBlock_bounds r
  have h5 := candleBlock_bounds r
  have h6 := biasBlock_bounds r
  have h7 := sma200Block_bounds r
  constructor
  · rw [total_score_calc]
    exact le_min (by linarith [h1.1, h2.1, h3.1, h4.1, h5.1, h6.1, h7.1]) (by norm_num)
  · rw [total_score_calc]
    exact min_le_right _ _

/-- The status label as a function of the score thresholds alone. -/
theorem statusRank_status (r : SmartMoneyResult) :
    statusRank r.status =
      if 80 ≤ r.total_score then 3
      else if 60 ≤ r.total_score then 2
      else if 40 ≤ r.total_score then 1
      else 0 := by
  unfold SmartMoneyResult.status
  split_ifs <;> decide

/-- C2: classification by `SmartMoneyResult.status` (thresholds 80 / 60 / 40) is
monotonic: a strictly smaller total score is never ranked strictly above a larger
one. -/
theorem C2_status_monotone (a b : SmartMoneyResult)
    (h : a.total_score < b.total_score) :
    statusRank a.status ≤ statusRank b.status := by
  rw [statusRank_status, statusRank_status]
  split_ifs <;> first | omega | (exfalso; linarith)

/-- Witness for C2 at a concrete pair of results. -/
theorem C2_status_monotone_witness :
    ({ ticker := "A", total_score := 50 } : SmartMoneyResult).total_score
        < ({ ticker := "B", total_score := 85 } : SmartMoneyResult).total_score
    ∧ statusRank ({ ticker := "A", total_score := 50 } : SmartMoneyResult).status
        ≤ statusRank ({ ticker := "B", total_score := 85 } : SmartMoneyResult).status :=
  ⟨by norm_num, C2_status_monotone _ _ (by norm_num)⟩

/-- C5 (failing part): on `trendBugInput` the scorer assigns `trend_score = 50`,
above the declared 40-point maximum of the trend category, because the source adds
the 10-point year-line bonus of the 乖離與位階 (bias, 25%) category to `trend_score`
(source line 489). -/
theorem C5_trend_score_exceeds_declared_max :
    (_calculate_smart_money_score trendBugInput).trend_score = 50
    ∧ ¬ (_calculate_smart_money_score trendBugInput).trend_score ≤ 40 := by
  have h : (_calculate_smart_money_score trendBugInput).trend_score = 50 := by
    rw [trend_score_calc]
    norm_num [squeezeBlock, breakoutBlock, sma200Block, trendBugInput,
      SmartMoneyResult.bb_width_percent, qTruthy, BB_SQUEEZE_WIDTH, BB_SQUEEZE_DAYS]
  exact ⟨h, by rw [h]; norm_num⟩

/-- C8: the scorer is idempotent: it recomputes every score field from the indicator
fields, which it never writes, so re-applying it to its own output changes nothing
(and, being a pure function of the result record, it is deterministic). -/
theorem C8_score_idempotent (r : SmartMoneyResult) :
    _calculate_smart_money_score (_calculate_smart_money_score r)
      = _calculate_smart_money_score r := rfl

/-- Unfolding of `screen` into its fetch/filter/sort/truncate pipeline, valid also
for the empty-universe early return. -/
theorem screen_eq_pipeline (provider : String → Except String (Option SmartMoneyResult))
    (ms : ℚ) (lim : ℕ) (ts : List String) :
    screen provider ms lim ts =
      (List.insertionSort scoreDescRel
        ((ts.filterMap (fetch_and_score provider)).filter
          (fun r => decide (ms ≤ r.total_score)))).take lim := by
  cases ts with
  | nil => simp [screen]
  | cons a l =>
    unfold screen
    simp only [List.isEmpty_cons, Bool.false_eq_true, if_false, List.filterMap_map]
    rfl

/-- A ticker whose provider call raises is scored as `None`
(`_fetch_full_data` catches every exception). -/
theorem fetch_and_score_error (provider : String → Except String (Option SmartMoneyResult))
    (t : String) (e : String) (h : provider t = Except.error e) :
    fetch_and_score provider t = none := by
  unfold fetch_and_score _fetch_full_data
  rw [h]

/-- Dropping a ticker whose provider call raises does not change the collected
scores. -/
theorem filterMap_skip_error
    (provider : String → Except String (Option SmartMoneyResult))
    (t : String) (e : String) (h : provider t = Except.error e) (ts : List String) :
    ts.filterMap (fetch_and_score provider)
      = (ts.filter (fun s => s ≠ t)).filterMap (fetch_and_score provider) := by
  induction ts with
  | nil => rfl
  | cons a l ih =>
    by_cases ha : a = t
    · subst ha
      simp [List.filterMap_cons, fetch_and_score_error provider a e h, ih]
    · simp [List.filter_cons, List.filterMap_cons, ha, ih]

/-- C4: if the fetch or analysis of one ticker raises during a batch scan, that
ticker is excluded and the scan is not aborted: the scan result is exactly the scan
over the remaining tickers. -/
theorem C4_raising_ticker_excluded
    (provider : String → Except String (Option SmartMoneyResult))
    (ms : ℚ) (lim : ℕ) (ts : List String) (t : String) (e : String)
    (h : provider t = Except.error e) :
    screen provider ms lim ts
      = screen provider ms lim (ts.filter (fun s => s ≠ t)) := by
  rw [screen_eq_pipeline, screen_eq_pipeline,
    ← filterMap_skip_error provider t e h ts]

/-- Witness for C4: ticker X raises, tickers A and B are still scanned. -/
theorem C4_raising_ticker_excluded_witness :
    oneErrorProvider "X" = Except.error "boom"
    ∧ screen oneErrorProvider 40 20 ["A", "X", "B"]
        = screen oneErrorProvider 40 20 (["A", "X", "B"].filter (fun s => s ≠ "X")) :=
  ⟨rfl, C4_raising_ticker_excluded oneErrorProvider 40 20 ["A", "X", "B"] "X" "boom" rfl⟩

/-- C7: a batch scan over an explicitly empty ticker list returns the empty list for
every possible provider behaviour — the provider is never consulted and no other
state exists to be touched. -/
theorem C7_screen_empty_universe (ms : ℚ) (lim : ℕ) :
    ∀ provider, screen provider ms lim [] = [] := fun _ => rfl

/-- C10: the batch scan returns at most `limit` results: its output is the
truncation to the first `limit` entries of the untruncated scan. -/
theorem C10_screen_capped_at_limit
    (provider : String → Except String (Option SmartMoneyResult))
    (ms : ℚ) (lim : ℕ) (ts : List String) :
    (screen provider ms lim ts).length ≤ lim
    ∧ screen provider ms lim ts = (screen provider ms ts.length ts).take lim := by
  have hlen : (List.insertionSort scoreDescRel
      ((ts.filterMap (fetch_and_score provider)).filter
        (fun r => decide (ms ≤ r.total_score)))).length ≤ ts.length := by
    rw [List.length_insertionSort]
    exact le_trans (List.length_filter_le _ _) (List.length_filterMap_le _ _)
  constructor
  · rw [screen_eq_pipeline]
    exact List.length_take_le _ _
  · rw [screen_eq_pipeline, screen_eq_pipeline, List.take_take]
    by_cases h : lim ≤ ts.length
    · rw [min_eq_left h]
    · push_neg at h
      rw [min_eq_right h.le, List.take_of_length_le hlen,
        List.take_of_length_le (le_trans hlen h.le)]

/-- C3 (amended): the batch scan output is sorted by `total_score` descending, every
entry is a successfully analyzed result passing the `min_score` filter, and whenever
at most `limit` results qualify none is dropped.  Equal scores keep the input order
(the sort is stable); there is no tie-break by ticker name. -/
theorem C3_screen_filter_sort_contract
    (provider : String → Except String (Option SmartMoneyResult))
    (ms : ℚ) (lim : ℕ) (ts : List String) :
    List.Pairwise scoreDescRel (screen provider ms lim ts)
    ∧ (∀ r ∈ screen provider ms lim ts,
        ms ≤ r.total_score ∧ ∃ t ∈ ts, fetch_and_score provider t = some r)
    ∧ (((ts.filterMap (fetch_and_score provider)).filter
          (fun r => decide (ms ≤ r.total_score))).length ≤ lim →
        ∀ r ∈ ts.filterMap (fetch_and_score provider), ms ≤ r.total_score →
          r ∈ screen provider ms lim ts) := by
  refine ⟨?_, ?_, ?_⟩
  · rw [screen_eq_pipeline]
    exact List.Pairwise.sublist (List.take_sublist _ _)
      (List.sorted_insertionSort scoreDescRel _)
  · intro r hr
    rw [screen_eq_pipeline] at hr
    have h1 : r ∈ List.insertionSort scoreDescRel
        ((ts.filterMap (fetch_and_score provider)).filter
          (fun r => decide (ms ≤ r.total_score))) := List.take_subset _ _ hr
    have h2 := (List.mem_insertionSort scoreDescRel).1 h1
    obtain ⟨hmem, hdec⟩ := List.mem_filter.1 h2
    exact ⟨of_decide_eq_true hdec, List.mem_filterMap.1 hmem⟩
  · intro hlen r hmem hms
    rw [screen_eq_pipeline, List.take_of_length_le]
    · exact (List.mem_insertionSort scoreDescRel).2
        (List.mem_filter.2 ⟨hmem, decide_eq_true hms⟩)
    · rw [List.length_insertionSort]
      exact hlen

/-- Scoring `tieBase` under any ticker gives exactly `tieScored`. -/
theorem fetch_and_score_tie (t : String) :
    fetch_and_score tieProvider t = some (tieScored t) := by
  unfold fetch_and_score _fetch_full_data tieProvider tieScored
  norm_num [_calculate_smart_money_score, squeezeBlock, breakoutBlock, obvBlock,
    ladderBlock, candleBlock, biasBlock, sma200Block, SmartMoneyResult.bb_width_percent,
    SmartMoneyResult.volume_ratio, qTruthy, BB_SQUEEZE_WIDTH, BB_SQUEEZE_DAYS,
    BODY_RATIO_THRESHOLD, CLOSE_POSITION_THRESHOLD, VOLUME_LADDER_THRESHOLD,
    BIAS_LOWER, BIAS_UPPER, tieBase]

/-- The scan of the tied tickers B then A returns them in input order. -/
theorem screen_tie_eval :
    screen tieProvider 40 20 ["B", "A"] = [tieScored "B", tieScored "A"] := by
  rw [screen_eq_pipeline]
  simp [fetch_and_score_tie, tieScored, tieBase, List.insertionSort,
    List.orderedInsert, scoreDescRel]

/-- Counterexample to C3: scanning the tied tickers B then A (both score exactly 40)
returns them in input order B, A — the output is not tie-broken by ticker name
ascending, so the claimed ordering predicate fails on the output. -/
theorem C3_no_ticker_tiebreak_counterexample :
    (screen tieProvider 40 20 ["B", "A"]).map SmartMoneyResult.ticker = ["B", "A"]
    ∧ (screen tieProvider 40 20 ["B", "A"]).map SmartMoneyResult.total_score = [40, 40]
    ∧ ¬ List.Pairwise
        (fun a b => b.total_score < a.total_score
          ∨ (b.total_score = a.total_score ∧ a.ticker ≤ b.ticker))
        (screen tieProvider 40 20 ["B", "A"]) := by
  rw [screen_tie_eval]
  refine ⟨rfl, ?_, ?_⟩
  · simp [tieScored, tieBase]
  · intro hp
    rcases List.pairwise_cons.1 hp with ⟨hrel, -⟩
    rcases hrel (tieScored "A") (List.mem_singleton_self _) with hlt | ⟨-, hle⟩
    · simp [tieScored, tieBase] at hlt
    · rw [String.le_iff_toList_le] at hle
      revert hle
      decide

/-- Counterexample to C9: with the model artifact present but a corrupt
`thresholds.json`, `load_model_data` propagates the `json.load` exception to the
caller instead of returning a failure value. -/
theorem C9_load_model_data_raises_counterexample :
    load_model_data corruptThresholdsEnv
      = Except.error "Expecting value: line 1 column 1" := rfl

/-- C9 (amended): `get_feature_importance` never raises — a missing model file, a
raising `joblib.load` or a raising feature-name construction all yield `None`; and
`load_model_data` returns `None` for a missing model file and only succeeds
unconditionally when `thresholds.json` is absent or deserializes cleanly. -/
theorem C9_loader_degrades_amended (env : MlEnv) :
    (env.model_exists = false →
      load_model_data env = Except.ok none ∧ get_feature_importance env = none)
    ∧ (∀ e, env.joblib_model = Except.error e → get_feature_importance env = none)
    ∧ (∀ e, env.feature_names = Except.error e → get_feature_importance env = none)
    ∧ ((env.thresholds_exists = false ∨ ∃ th, env.thresholds_json = Except.ok th) →
        ∃ v, load_model_data env = Except.ok v) := by
  obtain ⟨me, te, tj, jm, fn⟩ := env
  refine ⟨?_, ?_, ?_, ?_⟩
  · intro hme
    subst hme
    exact ⟨by simp [load_model_data],
      by simp [get_feature_importance, pure, Except.pure]⟩
  · intro e he
    subst he
    cases me <;>
      simp [get_feature_importance, pure, Except.pure, bind, Except.bind]
  · intro e he
    subst he
    cases me
    · simp [get_feature_importance, pure, Except.pure]
    · cases jm with
      | error e2 =>
        simp [get_feature_importance, pure, Except.pure, bind, Except.bind]
      | ok m =>
        simp [get_feature_importance, pure, Except.pure, bind, Except.bind]
  · intro h
    cases me
    · exact ⟨none, by simp [load_model_data]⟩
    · rcases h with hte | ⟨th, htj⟩
      · subst hte
        exact ⟨some { thresholds := none }, by simp [load_model_data]⟩
      · subst htj
        cases te
        · exact ⟨some { thresholds := none }, by simp [load_model_data]⟩
        · exact ⟨some { thresholds := some th }, by simp [load_model_data]⟩
